import Mathlib

/-!
Verification of the Excel keyword-search / bulk search-replace application
(`app.py`).  The Python functions are shallowly embedded as Lean
definitions; cell grids are lists of optional strings (a `none` cell is a
Python `None` cell), fallible operations return `Option`/`Except`, and the
compiled regular-expression object is abstracted as a pair of functions
(its `finditer` and `sub` methods).
-/

set_option autoImplicit false

namespace ExcelApp

/-! ### String primitives used by the matcher -/

/-- Model of Python `str.lower()` (exact on the ASCII range): lowercase
every character of the string. -/
def pyLower (s : String) : String :=
  ⟨s.data.map Char.toLower⟩

/-- Model of the Python containment test `needle in hay` on strings:
`needle` occurs as a contiguous substring of `hay`. -/
def pySubstr (needle hay : String) : Bool :=
  decide (needle.data <:+: hay.data)

/-- The per-keyword test of `search_keywords_in_excel` (app.py line 176):
`keyword.lower() in cell_value.lower()`. -/
def kwMatch (cellValue keyword : String) : Bool :=
  pySubstr (pyLower keyword) (pyLower cellValue)

/-! ### Keyword matcher (app.py lines 162-185, inner keyword loop) -/

/-- A match-record fragment carrying the cell text and the keyword that
hit it (the `value`/`keyword` fields appended at app.py lines 178-185). -/
structure MatchFragment where
  value : String
  keyword : String
deriving DecidableEq, Repr

/-- The inner loop `for keyword in keywords: if keyword.lower() in
cell_value.lower(): results.append(...)` of `search_keywords_in_excel`:
fragments are appended in keyword-list order, one per matching keyword. -/
def matchCell (cellValue : String) : List String → List MatchFragment
  | [] => []
  | k :: ks =>
      (if kwMatch cellValue k then [⟨cellValue, k⟩] else []) ++ matchCell cellValue ks

theorem matchCell_eq_filter (cellValue : String) (keywords : List String) :
    matchCell cellValue keywords =
      (keywords.filter (fun k => kwMatch cellValue k)).map
        (fun k => ⟨cellValue, k⟩) := by
  induction keywords with
  | nil => rfl
  | cons k ks ih =>
      by_cases h : kwMatch cellValue k = true <;>
        simp [matchCell, List.filter_cons, h, ih]

/-- C1: for every cell text `T` and keyword list `K`, the matcher emits
exactly one fragment per keyword `k` of `K` whose lowercase form is a
substring of the lowercase cell text; the emitted keywords are exactly the
matching sublist of `K` in order, with no deduplication. -/
theorem keyword_match_one_fragment_per_matching_keyword
    (T : String) (K : List String) :
    (matchCell T K).length = (K.filter (fun k => kwMatch T k)).length ∧
    (matchCell T K).map MatchFragment.keyword = K.filter (fun k => kwMatch T k) ∧
    ∀ frag ∈ matchCell T K, frag.value = T := by
  refine ⟨?_, ?_, ?_⟩
  · rw [matchCell_eq_filter, List.length_map]
  · rw [matchCell_eq_filter, List.map_map]
    exact List.map_id _
  · intro frag hfrag
    rw [matchCell_eq_filter] at hfrag
    obtain ⟨k, _, rfl⟩ := List.mem_map.mp hfrag
    rfl

/-! ### Column-letter codec (app.py lines 346-364) -/

/-- Model of the local helper `number_to_excel_column` of
`create_results_workbook` (app.py lines 346-364): the while-loop
`while n > 0: n -= 1; result = chr(65 + n % 26) + result; n //= 26`
written as recursion on the decreasing `n`. -/
def number_to_excel_column (n : Nat) : String :=
  if h : n = 0 then ""
  else
    number_to_excel_column ((n - 1) / 26) ++
      String.singleton (Char.ofNat (65 + (n - 1) % 26))
termination_by n
decreasing_by
  exact Nat.lt_of_le_of_lt (Nat.div_le_self _ _)
    (Nat.sub_lt (Nat.pos_of_ne_zero h) Nat.one_pos)

theorem number_to_excel_column_zero : number_to_excel_column 0 = "" := by
  rw [number_to_excel_column]
  simp

theorem number_to_excel_column_succ (n : Nat) :
    number_to_excel_column (n + 1) =
      number_to_excel_column (n / 26) ++
        String.singleton (Char.ofNat (65 + n % 26)) := by
  rw [number_to_excel_column]
  simp

/-- Decoder taken from the specification text: read a column string as a
base-26 numeral with A = 1 (so the code of each letter minus 64). -/
def decode_column (s : String) : Nat :=
  s.data.foldl (fun acc c => acc * 26 + (c.toNat - 64)) 0

theorem decode_column_append_singleton (s : String) (c : Char) :
    decode_column (s ++ String.singleton c) =
      decode_column s * 26 + (c.toNat - 64) := by
  simp [decode_column, String.singleton, List.foldl_append]

theorem char_ofNat_letter_toNat :
    ∀ k : Fin 26, (Char.ofNat (65 + k.val)).toNat = 65 + k.val := by
  decide

theorem decode_number_to_excel_column (n : Nat) :
    decode_column (number_to_excel_column n) = n := by
  induction n using Nat.strong_induction_on with
  | _ n ih =>
    match n with
    | 0 => simp [number_to_excel_column_zero, decode_column]
    | Nat.succ m =>
      have hc : (Char.ofNat (65 + m % 26)).toNat = 65 + m % 26 :=
        char_ofNat_letter_toNat ⟨m % 26, Nat.mod_lt m (by omega)⟩
      rw [number_to_excel_column_succ, decode_column_append_singleton,
        ih (m / 26) (Nat.lt_succ_of_le (Nat.div_le_self m 26)), hc]
      omega

/-- C3: for every column index n in [1, 701] the codec round-trips
(decoding `number_to_excel_column n` as base-26 with A = 1 gives n back),
and concretely 1 -> "A", 26 -> "Z", 27 -> "AA", 702 -> "ZZ". -/
theorem column_letter_codec_roundtrip :
    (∀ n : Nat, 1 ≤ n → n ≤ 701 →
      decode_column (number_to_excel_column n) = n) ∧
    number_to_excel_column 1 = "A" ∧
    number_to_excel_column 26 = "Z" ∧
    number_to_excel_column 27 = "AA" ∧
    number_to_excel_column 702 = "ZZ" := by
  refine ⟨fun n _ _ => decode_number_to_excel_column n, ?_, ?_, ?_, ?_⟩
  · rw [number_to_excel_column]; norm_num
    rw [number_to_excel_column]; norm_num
    decide
  · rw [number_to_excel_column]; norm_num
    rw [number_to_excel_column]; norm_num
    decide
  · rw [number_to_excel_column]; norm_num
    rw [number_to_excel_column]; norm_num
    rw [number_to_excel_column]; norm_num
    decide
  · rw [number_to_excel_column]; norm_num
    rw [number_to_excel_column]; norm_num
    rw [number_to_excel_column]; norm_num
    decide

/-- Witness for C3 at the concrete column index 27. -/
theorem column_letter_codec_roundtrip_witness :
    decode_column (number_to_excel_column 27) = 27 :=
  column_letter_codec_roundtrip.1 27 (by decide) (by decide)

/-! ### Cell-reference builder (app.py lines 366-377) -/

/-- The special characters listed at app.py line 370 whose presence in a
sheet name forces single-quoting. -/
def special_chars : List Char :=
  ['!', '@', '#', '$', '%', '^', '&', '*', '(', ')']

/-- Quoting condition of app.py line 370: the sheet name contains a
space, a hyphen, or one of the `special_chars`. -/
def sheet_needs_quote (sheetName : String) : Bool :=
  decide (' ' ∈ sheetName.data) || decide ('-' ∈ sheetName.data) ||
    special_chars.any (fun c => decide (c ∈ sheetName.data))

/-- Cell-reference construction of app.py lines 371-373: the sheet
name, an exclamation mark, the column letters and the row number, with
the sheet name wrapped in single quotes when quoting is needed. -/
def cell_reference (sheetName colLetter : String) (rowNum : Nat) : String :=
  if sheet_needs_quote sheetName then
    "\x27" ++ sheetName ++ "\x27!" ++ colLetter ++ toString rowNum
  else
    sheetName ++ "!" ++ colLetter ++ toString rowNum

/-- C7: the cell-reference builder quotes the sheet name exactly when it
contains a space, a hyphen or one of `! @ # $ % ^ & * ( )`, and
concretely sheet "Q1 2024", column 28, row 5 gives the single-quoted
sheet name followed by "!AB5". -/
theorem cell_reference_quotes_iff_special
    (S colL : String) (r : Nat) :
    (cell_reference S colL r =
      if ' ' ∈ S.data ∨ '-' ∈ S.data ∨ ∃ c ∈ special_chars, c ∈ S.data
      then "\x27" ++ S ++ "\x27!" ++ colL ++ toString r
      else S ++ "!" ++ colL ++ toString r) ∧
    cell_reference "Q1 2024" (number_to_excel_column 28) 5 =
      "\x27Q1 2024\x27!AB5" := by
  constructor
  · have hiff : sheet_needs_quote S = true ↔
        (' ' ∈ S.data ∨ '-' ∈ S.data ∨ ∃ c ∈ special_chars, c ∈ S.data) := by
      simp [sheet_needs_quote, List.any_eq_true, or_assoc]
    by_cases hp : ' ' ∈ S.data ∨ '-' ∈ S.data ∨ ∃ c ∈ special_chars, c ∈ S.data
    · rw [if_pos hp]
      simp only [cell_reference]
      rw [if_pos (hiff.mpr hp)]
    · rw [if_neg hp]
      simp only [cell_reference]
      rw [if_neg (fun hb => hp (hiff.mp hb))]
  · have h28 : number_to_excel_column 28 = "AB" := by
      rw [number_to_excel_column]; norm_num
      rw [number_to_excel_column]; norm_num
      rw [number_to_excel_column]; norm_num
      decide
    rw [h28]
    decide

/-! ### Workbook scanner and result aggregator (app.py 118-197, 686-723) -/

/-- A match record as assembled at app.py lines 178-185 (the `file` field
is stamped by the aggregator and omitted here). -/
structure MatchRecord where
  sheet : String
  row : Nat
  col : Nat
  value : String
  keyword : String
deriving DecidableEq, Repr

/-- A sheet is a name plus a row-major grid of cells; a `none` cell is a
Python `None` cell value, a `some s` cell holds the string form `str(v)`
of its value. -/
abbrev Sheet := String × List (List (Option String))

/-- A workbook is its list of sheets in native order. -/
abbrev Workbook := List Sheet

/-- The column loop of `search_keywords_in_excel` (app.py 164-185):
cells are enumerated from 1, `None` cells are skipped, and each matching
keyword appends one record. -/
def scanRow (keywords : List String) (sheetName : String) (rowIdx : Nat)
    (row : List (Option String)) : List MatchRecord :=
  (List.enumFrom 1 row).flatMap fun p =>
    match p.2 with
    | none => []
    | some cellValue =>
        (matchCell cellValue keywords).map fun frag =>
          ⟨sheetName, rowIdx, p.1, frag.value, frag.keyword⟩

/-- The row loop of `search_keywords_in_excel` (app.py 162): rows are
enumerated from 1 in sheet order. -/
def scanSheet (keywords : List String) (sheet : Sheet) : List MatchRecord :=
  (List.enumFrom 1 sheet.2).flatMap fun p => scanRow keywords sheet.1 p.1 p.2

/-- The sheet loop of `search_keywords_in_excel` (app.py 157-158). -/
def scanWorkbook (keywords : List String) (wb : Workbook) : List MatchRecord :=
  wb.flatMap (scanSheet keywords)

/-- Model of `search_keywords_in_excel` (app.py 118-197).  The argument
is `none` when `openpyxl.load_workbook` raises on a corrupt or unreadable
file; the `except` branch at lines 189-196 then returns the empty result
list instead of propagating the exception. -/
def search_keywords_in_excel (keywords : List String)
    (loaded : Option Workbook) : List MatchRecord :=
  match loaded with
  | none => []
  | some wb => scanWorkbook keywords wb

/-- The aggregation loop of `search_excel_files` (app.py 686-693):
results of all workbooks are concatenated in file order. -/
def aggregate_results (keywords : List String)
    (files : List (Option Workbook)) : List MatchRecord :=
  files.flatMap (search_keywords_in_excel keywords)

/-- Error taxonomy of the endpoints: HTTP 400 responses are
`invalidInput`, HTTP 404 responses are `notFound`. -/
inductive ApiError where
  | invalidInput
  | notFound
deriving DecidableEq, Repr

/-- Model of `normalize_path` returning `None` (app.py 483-543): that
happens exactly when the path string is empty or whitespace-only
(`path_str.strip()` is falsy). -/
def normalize_path_is_none (pathStr : String) : Bool :=
  pathStr.data.all Char.isWhitespace

/-- Folder state seen by the search endpoint: whether the normalized
path exists, whether it is a directory, and the workbooks found by the
`*.xlsx` / `*.xls` glob (each `none` if it later fails to open). -/
structure FolderInfo where
  folderExists : Bool
  isDir : Bool
  excelFiles : List (Option Workbook)

/-- Model of the `search_excel_files` endpoint (app.py 550-723):
validation checks in source order, then aggregation; the `Except` error
carries the HTTP error class and no result set. -/
def search_excel_files (folderPath : String) (keywords : List String)
    (folder : FolderInfo) : Except ApiError (List MatchRecord × Nat) :=
  if folderPath = "" then .error .invalidInput
  else if keywords = [] then .error .invalidInput
  else if normalize_path_is_none folderPath then .error .invalidInput
  else if folder.folderExists = false then .error .notFound
  else if folder.isDir = false then .error .invalidInput
  else if folder.excelFiles = [] then .error .notFound
  else .ok (aggregate_results keywords folder.excelFiles,
            folder.excelFiles.length)

theorem aggregate_results_eq_filterMap (keywords : List String)
    (files : List (Option Workbook)) :
    aggregate_results keywords files =
      (files.filterMap id).flatMap (scanWorkbook keywords) := by
  induction files with
  | nil => rfl
  | cons f fs ih =>
      cases f <;>
        simp [aggregate_results, search_keywords_in_excel,
          List.filterMap_cons, ih] <;>
        simpa [aggregate_results] using ih

/-- C5: a corrupt workbook (one that fails to open) contributes zero
records, the aggregate is exactly the concatenation of the remaining
matches of the surviving workbooks, and in the three-workbook scenario with workbook 2
corrupt the endpoint still reports `files_searched = 3`. -/
theorem aggregator_isolates_corrupt_workbooks
    (keywords : List String) (files : List (Option Workbook)) :
    search_keywords_in_excel keywords none = [] ∧
    aggregate_results keywords files =
      (files.filterMap id).flatMap (scanWorkbook keywords) ∧
    (∀ wb1 wb3 : Workbook, keywords ≠ [] →
      search_excel_files "folder" keywords
          ⟨true, true, [some wb1, none, some wb3]⟩ =
        .ok (scanWorkbook keywords wb1 ++ scanWorkbook keywords wb3, 3)) := by
  refine ⟨rfl, aggregate_results_eq_filterMap keywords files, ?_⟩
  intro wb1 wb3 hk
  simp [search_excel_files, normalize_path_is_none, hk,
    aggregate_results, search_keywords_in_excel]

/-- Witness for C5: one healthy workbook with a single matching cell, a
corrupt workbook, and one healthy empty workbook. -/
theorem aggregator_isolates_corrupt_workbooks_witness :
    search_excel_files "folder" ["a"]
        ⟨true, true, [some [("S", [[some "abc"]])], none, some []]⟩ =
      .ok (scanWorkbook ["a"] [("S", [[some "abc"]])] ++
            scanWorkbook ["a"] [], 3) :=
  (aggregator_isolates_corrupt_workbooks ["a"] []).2.2
    [("S", [[some "abc"]])] [] (by simp)

/-! ### C8: records point at non-null cells -/

theorem mem_enumFrom_getElem {α : Type} (p : Nat × α) :
    ∀ (n : Nat) (l : List α), p ∈ List.enumFrom n l →
      n ≤ p.1 ∧ l[p.1 - n]? = some p.2 := by
  intro n l
  induction l generalizing n with
  | nil => intro h; simp [List.enumFrom] at h
  | cons a t ih =>
      intro h
      simp only [List.enumFrom] at h
      rcases List.mem_cons.mp h with h | h
      · rw [h]
        simp
      · have ht := ih (n + 1) h
        refine ⟨by omega, ?_⟩
        have hidx : p.1 - n = (p.1 - (n + 1)) + 1 := by omega
        rw [hidx, List.getElem?_cons_succ]
        exact ht.2

theorem mem_matchCell_value (v : String) (kws : List String)
    (frag : MatchFragment) (h : frag ∈ matchCell v kws) : frag.value = v := by
  rw [matchCell_eq_filter] at h
  obtain ⟨k, _, rfl⟩ := List.mem_map.mp h
  rfl

theorem mem_scanRow (kws : List String) (sname : String) (i : Nat)
    (row : List (Option String)) (rec : MatchRecord)
    (h : rec ∈ scanRow kws sname i row) :
    rec.sheet = sname ∧ rec.row = i ∧ 1 ≤ rec.col ∧
      row[rec.col - 1]? = some (some rec.value) := by
  simp only [scanRow, List.mem_flatMap] at h
  obtain ⟨p, hp, hrec⟩ := h
  cases hv : p.2 with
  | none => rw [hv] at hrec; simp at hrec
  | some cellValue =>
      rw [hv] at hrec
      obtain ⟨frag, hfrag, rfl⟩ := List.mem_map.mp hrec
      have hval := mem_matchCell_value cellValue kws frag hfrag
      have henum := mem_enumFrom_getElem p 1 row hp
      refine ⟨rfl, rfl, henum.1, ?_⟩
      show row[p.1 - 1]? = some (some frag.value)
      rw [hval, ← hv]
      exact henum.2

theorem mem_scanSheet (kws : List String) (sh : Sheet) (rec : MatchRecord)
    (h : rec ∈ scanSheet kws sh) :
    rec.sheet = sh.1 ∧ 1 ≤ rec.row ∧ ∃ rowCells,
      sh.2[rec.row - 1]? = some rowCells ∧
      1 ≤ rec.col ∧ rowCells[rec.col - 1]? = some (some rec.value) := by
  simp only [scanSheet, List.mem_flatMap] at h
  obtain ⟨p, hp, hrec⟩ := h
  have henum := mem_enumFrom_getElem p 1 sh.2 hp
  have hrow := mem_scanRow kws sh.1 p.1 p.2 rec hrec
  refine ⟨hrow.1, ?_, p.2, ?_, hrow.2.2.1, hrow.2.2.2⟩
  · rw [hrow.2.1]; exact henum.1
  · rw [hrow.2.1]; exact henum.2

theorem scanRow_all_none (kws : List String) (sname : String) (i : Nat)
    (row : List (Option String)) (hall : ∀ c ∈ row, c = none) :
    scanRow kws sname i row = [] := by
  rw [scanRow, List.flatMap_eq_nil_iff]
  intro p hp
  have := mem_enumFrom_getElem p 1 row hp
  have hnone := hall p.2 (List.getElem?_mem this.2)
  rw [hnone]

/-- C8: every match record produced by scanning a workbook points at a
cell of that workbook whose value was non-null (`some`) and equal to the
cell text of the record, and a row of empty (`None`) cells is skipped without
error, producing no records. -/
theorem match_records_point_at_nonnull_cells
    (kws : List String) (wb : Workbook) (rec : MatchRecord)
    (h : rec ∈ scanWorkbook kws wb) :
    (∃ sh ∈ wb, sh.1 = rec.sheet ∧ ∃ rowCells,
        sh.2[rec.row - 1]? = some rowCells ∧
        rowCells[rec.col - 1]? = some (some rec.value)) ∧
    (∀ (sname : String) (i : Nat) (row : List (Option String)),
      (∀ c ∈ row, c = none) → scanRow kws sname i row = []) := by
  constructor
  · simp only [scanWorkbook, List.mem_flatMap] at h
    obtain ⟨sh, hsh, hrec⟩ := h
    have hs := mem_scanSheet kws sh rec hrec
    obtain ⟨rowCells, hrow, _, hcell⟩ := hs.2.2
    exact ⟨sh, hsh, hs.1.symm, rowCells, hrow, hcell⟩
  · exact fun sname i row hall => scanRow_all_none kws sname i row hall

/-- Witness for C8: workbook with one sheet whose first row is an empty
cell followed by the text "abc", searched for keyword "a". -/
theorem match_records_point_at_nonnull_cells_witness :
    (∃ sh ∈ ([("S", [[none, some "abc"]])] : Workbook), sh.1 = "S" ∧
      ∃ rowCells, sh.2[(0 : Nat)]? = some rowCells ∧
        rowCells[(1 : Nat)]? = some (some "abc")) ∧
    (∀ (sname : String) (i : Nat) (row : List (Option String)),
      (∀ c ∈ row, c = none) → scanRow ["a"] sname i row = []) :=
  match_records_point_at_nonnull_cells ["a"] [("S", [[none, some "abc"]])]
    ⟨"S", 1, 2, "abc", "a"⟩ (by decide)

/-! ### C6: validation errors of the search endpoint -/

/-- C6 counterexample: an existing directory that contains no workbooks,
queried with an empty keyword list.  The claim requires NotFound whenever
no workbooks are found, but the endpoint validates the keyword list first
(app.py line 613 precedes line 663) and reports InvalidInput. -/
theorem search_validation_precedence_counterexample :
    search_excel_files "folder" [] ⟨true, true, []⟩ =
      Except.error ApiError.invalidInput ∧
    ApiError.invalidInput ≠ ApiError.notFound := by
  constructor
  · simp [search_excel_files]
  · decide

/-- C6 amended: empty keywords always give InvalidInput; no workbooks in
the folder gives NotFound provided the path is non-blank, the keyword
list is non-empty, and the folder exists and is a directory (these
validations precede the workbook glob).  In both cases the endpoint
returns an error and no result set. -/
theorem search_validation_errors (fp : String) (kws : List String)
    (folder : FolderInfo) :
    (kws = [] → search_excel_files fp kws folder =
      Except.error ApiError.invalidInput) ∧
    (fp ≠ "" → normalize_path_is_none fp = false → kws ≠ [] →
      folder.folderExists = true → folder.isDir = true →
      folder.excelFiles = [] →
      search_excel_files fp kws folder =
        Except.error ApiError.notFound) := by
  constructor
  · intro hk
    by_cases h1 : fp = "" <;> simp [search_excel_files, h1, hk]
  · intro h1 h2 h3 h4 h5 h6
    simp [search_excel_files, h1, h2, h3, h4, h5, h6]

/-- Witness for C6: an existing empty directory with a non-empty keyword
list yields NotFound. -/
theorem search_validation_errors_witness :
    search_excel_files "folder" ["kw"] ⟨true, true, []⟩ =
      Except.error ApiError.notFound :=
  (search_validation_errors "folder" ["kw"] ⟨true, true, []⟩).2
    (by decide) (by decide) (by simp) rfl rfl rfl

/-! ### C2: per-row fill color of the result workbook (app.py 443-449) -/

/-- The coloring-dict construction of `create_results_workbook` (app.py
lines 443-447).  The Python dict literal evaluates `keywords[0]`,
`keywords[1]` and `keywords[2]` unconditionally (the `if len(keywords) >
k` conditionals only guard the color values), so building it raises
IndexError — modelled as `none` — whenever fewer than three keywords were
supplied; a duplicate key among the first three keywords is overwritten
by the later entry (Python dict semantics, applied in `dict_get`). -/
def keyword_colors (keywords : List String) :
    Option (List (String × String)) := do
  let k0 ← keywords[0]?
  let k1 ← keywords[1]?
  let k2 ← keywords[2]?
  pure [(k0, if keywords.length > 0 then "FFE6E6" else "FFFFFF"),
        (k1, if keywords.length > 1 then "E6F3FF" else "FFFFFF"),
        (k2, if keywords.length > 2 then "E6FFE6" else "FFFFFF")]

/-- Lookup in a Python dict built from an entry list: a later binding of
the same key overwrites an earlier one, and `.get(key, default)` falls
back to the default. -/
def dict_get (entries : List (String × String)) (key dflt : String) :
    String :=
  match entries.reverse.find? (fun e => decide (e.1 = key)) with
  | some e => e.2
  | none => dflt

/-- The fill-color selection of app.py line 449:
`keyword_colors.get` applied to the matched keyword of the record,
with default "FFFFFF". -/
def fill_color (keywords : List String) (matchedKeyword : String) :
    Option String :=
  (keyword_colors keywords).map
    (fun d => dict_get d matchedKeyword "FFFFFF")

/-- C2 counterexample: with the non-empty KeywordSet ["alpha"] and a
record that matched "alpha", the claim requires the light-red fill
FFE6E6, but the dict construction indexes `keywords[1]` and raises
IndexError, so no fill color is produced at all. -/
theorem renderer_color_counterexample :
    fill_color ["alpha"] "alpha" = none ∧
    (none : Option String) ≠ some "FFE6E6" := by
  constructor
  · rfl
  · decide

/-- C2 amended: when the KeywordSet has at least three keywords, the
data-row fill is selected by comparing the matched keyword with the 3rd,
then the 2nd, then the 1st keyword (later duplicates among the first
three win, by dict overwrite): 3rd -> light green E6FFE6, else 2nd ->
light blue E6F3FF, else 1st -> light red FFE6E6, else white FFFFFF.
When the KeywordSet has fewer than three keywords the color lookup
raises IndexError and no row is rendered. -/
theorem renderer_color_by_keyword (k0 k1 k2 kw : String)
    (rest : List String) :
    fill_color (k0 :: k1 :: k2 :: rest) kw =
      some (if k2 = kw then "E6FFE6"
            else if k1 = kw then "E6F3FF"
            else if k0 = kw then "FFE6E6"
            else "FFFFFF") ∧
    (∀ ks : List String, ks.length < 3 → fill_color ks kw = none) := by
  constructor
  · by_cases h2 : k2 = kw <;> by_cases h1 : k1 = kw <;>
      by_cases h0 : k0 = kw <;>
      simp [fill_color, keyword_colors, dict_get, List.find?, h0, h1, h2]
  · intro ks hks
    match ks with
    | [] => rfl
    | [_] => rfl
    | [_, _] => rfl
    | _ :: _ :: _ :: _ => simp at hks; omega

/-- Witness for C2 at concrete inputs: a match on the 4th keyword
"delta" gets the default white fill, and a one-keyword set produces no
color at all. -/
theorem renderer_color_by_keyword_witness :
    fill_color ["alpha", "beta", "gamma", "delta"] "delta" =
      some "FFFFFF" ∧
    fill_color ["alpha"] "beta" = none := by
  constructor
  · have h := (renderer_color_by_keyword "alpha" "beta" "gamma" "delta"
      ["delta"]).1
    simpa using h
  · exact (renderer_color_by_keyword "alpha" "beta" "gamma" "delta" []).2
      ["alpha"] (by decide)

/-! ### Bulk search-replace engine (app.py 1286-1572) -/

/-- One match yielded by `pattern.finditer`: its span and matched text. -/
structure Span where
  start : Nat
  stop : Nat
  matchText : String
deriving DecidableEq, Repr

/-- An abstract compiled pattern (`re.compile` result): its `finditer`
method (all non-overlapping matches in a string) and its `sub` method
(the string with every match replaced). -/
structure Pattern where
  finditer : String → List Span
  sub : String → String

/-- A file targeted by the bulk engine: a spreadsheet that opens
successfully, a spreadsheet on which `openpyxl.load_workbook` raises, or
a plain-text file with its content. -/
inductive TargetFile where
  | excelOk (wb : Workbook)
  | excelCorrupt
  | textFile (content : String)
deriving DecidableEq

/-- The observable outcome of processing one target file: its content
after the call, whether a `.bak` backup was written, the match count,
whether a replacement was persisted, and whether an entry (normal or
error) was appended to `results`. -/
structure FileOutcome where
  final : TargetFile
  backupCreated : Bool
  totalMatches : Nat
  replaced : Bool
  reported : Bool
  errorEntry : Bool

/-- The per-cell body of the spreadsheet branch (app.py 1432-1468): a
`None` cell is skipped; otherwise matches are counted and, outside
preview mode, a cell with matches is overwritten with the substituted
value (the repeated per-match assignment at 1459-1467 always writes the
same value, computed from the original cell text). -/
def processCell (pat : Pattern) (subst : String → String)
    (previewOnly : Bool) (cell : Option String) : Option String × Nat :=
  match cell with
  | none => (none, 0)
  | some cellValue =>
      let ms := pat.finditer cellValue
      if ms.isEmpty then (some cellValue, 0)
      else ((if previewOnly then some cellValue else some (subst cellValue)),
            ms.length)

/-- The cell loop of one row of one sheet (app.py 1432-1433). -/
def processRow (pat : Pattern) (subst : String → String)
    (previewOnly : Bool) (row : List (Option String)) :
    List (Option String) × Nat :=
  let processed := row.map (processCell pat subst previewOnly)
  (processed.map Prod.fst, (processed.map Prod.snd).sum)

/-- The row loop of one sheet (app.py 1428-1433). -/
def processSheet (pat : Pattern) (subst : String → String)
    (previewOnly : Bool) (sh : Sheet) : Sheet × Nat :=
  let processed := sh.2.map (processRow pat subst previewOnly)
  ((sh.1, processed.map Prod.fst), (processed.map Prod.snd).sum)

/-- The sheet loop of the spreadsheet branch (app.py 1428). -/
def processWorkbook (pat : Pattern) (subst : String → String)
    (previewOnly : Bool) (wb : Workbook) : Workbook × Nat :=
  let processed := wb.map (processSheet pat subst previewOnly)
  (processed.map Prod.fst, (processed.map Prod.snd).sum)

/-- Processing of one target file (app.py 1404-1558).  Spreadsheet that
opens: backup written whenever preview is off (1422-1424, before the
scan), workbook saved only when preview is off and at least one match
was found (1470-1473), result entry appended only with matches (1476).
Corrupt spreadsheet: error entry, nothing written (1481-1488).  Text
file: an entry, backup and rewrite only when matches exist, backup and
rewrite only outside preview (1495-1549). -/
def process_target (pat : Pattern) (subst : String → String)
    (previewOnly : Bool) : TargetFile → FileOutcome
  | TargetFile.excelCorrupt =>
      { final := TargetFile.excelCorrupt, backupCreated := false,
        totalMatches := 0, replaced := false, reported := true,
        errorEntry := true }
  | TargetFile.excelOk wb =>
      let p := processWorkbook pat subst previewOnly wb
      let doSave := !previewOnly && p.2 != 0
      { final := TargetFile.excelOk (if doSave then p.1 else wb),
        backupCreated := !previewOnly, totalMatches := p.2,
        replaced := doSave, reported := p.2 != 0, errorEntry := false }
  | TargetFile.textFile content =>
      let ms := pat.finditer content
      if ms.isEmpty then
        { final := TargetFile.textFile content, backupCreated := false,
          totalMatches := 0, replaced := false, reported := false,
          errorEntry := false }
      else
        { final := TargetFile.textFile
            (if previewOnly then content else subst content),
          backupCreated := !previewOnly, totalMatches := ms.length,
          replaced := !previewOnly, reported := true, errorEntry := false }

/-- Model of the `search_replace_files` endpoint (app.py 1286-1572):
validation in source order (folder path 1367, search pattern 1370,
folder existence and directory check 1373-1375, empty target set 1386),
then pattern compilation (1392-1401: the user regex when `use_regex`,
which may fail, else the always-compilable escaped literal), then the
per-file loop.  The second component is the content of every target
file after the call. -/
def search_replace_files (folderPath searchPattern replacePattern : String)
    (folderOk : Bool) (targets : List TargetFile)
    (useRegex previewOnly : Bool) (regexCompile : Option Pattern)
    (literalPattern : Pattern) :
    Except ApiError (List FileOutcome) × List TargetFile :=
  if folderPath = "" then (.error .invalidInput, targets)
  else if searchPattern = "" then (.error .invalidInput, targets)
  else if folderOk = false then (.error .notFound, targets)
  else if targets = [] then (.error .notFound, targets)
  else
    match (if useRegex then regexCompile else some literalPattern) with
    | none => (.error .invalidInput, targets)
    | some pat =>
        let subst := if useRegex then pat.sub
          else fun s => s.replace searchPattern replacePattern
        let outs := targets.map (process_target pat subst previewOnly)
        (.ok outs, outs.map FileOutcome.final)

theorem process_target_preview (pat : Pattern)
    (subst : String → String) (t : TargetFile) :
    (process_target pat subst true t).backupCreated = false ∧
    (process_target pat subst true t).final = t := by
  cases t with
  | excelOk wb => simp [process_target]
  | excelCorrupt => simp [process_target]
  | textFile content =>
      by_cases h : (pat.finditer content).isEmpty <;>
        simp [process_target, h]

/-- C4: in preview mode the bulk engine creates no `.bak` backup and
alters no file content — for spreadsheets and text files alike, matches
or not — and the endpoint leaves the whole target set unchanged. -/
theorem preview_mode_has_no_side_effects (pat : Pattern)
    (subst : String → String) (t : TargetFile)
    (folderPath searchPattern replacePattern : String) (folderOk : Bool)
    (targets : List TargetFile) (useRegex : Bool)
    (regexCompile : Option Pattern) (literalPattern : Pattern) :
    ((process_target pat subst true t).backupCreated = false ∧
     (process_target pat subst true t).final = t) ∧
    (search_replace_files folderPath searchPattern replacePattern folderOk
        targets useRegex true regexCompile literalPattern).2 = targets := by
  refine ⟨process_target_preview pat subst t, ?_⟩
  have hmap : ∀ (q : Pattern) (f : String → String),
      (targets.map (process_target q f true)).map FileOutcome.final =
        targets := by
    intro q f
    rw [List.map_map]
    have : (FileOutcome.final ∘ process_target q f true) = id :=
      funext fun u => (process_target_preview q f u).2
    rw [this, List.map_id]
  rw [search_replace_files]
  split
  · rfl
  split
  · rfl
  split
  · rfl
  split
  · rfl
  split
  · rfl
  · exact hmap _ _

/-- C10: with preview off, a spreadsheet that opens gets a `.bak`
backup unconditionally — even when it contains zero matches — while a
text file gets a backup exactly when it has at least one match. -/
theorem backup_excel_unconditional_text_on_match (pat : Pattern)
    (subst : String → String) (wb : Workbook) (content : String) :
    (process_target pat subst false
        (TargetFile.excelOk wb)).backupCreated = true ∧
    ((process_target pat subst false
        (TargetFile.textFile content)).backupCreated = true ↔
      pat.finditer content ≠ []) := by
  constructor
  · simp [process_target]
  · by_cases h : (pat.finditer content).isEmpty <;>
      simp [process_target, h] <;>
      simpa [List.isEmpty_iff] using h

/-- C9 counterexample: with a non-existent folder and an uncompilable
regex, the endpoint reports NotFound (the folder check at app.py 1374
precedes the regex compilation at 1393-1397), not InvalidInput as the
claim requires. -/
theorem invalid_regex_precedence_counterexample :
    (search_replace_files "folder" "[" "x" false [TargetFile.textFile "abc"]
        true true none ⟨fun _ => [], id⟩).1 =
      Except.error ApiError.notFound ∧
    ApiError.notFound ≠ ApiError.invalidInput := by
  constructor
  · simp [search_replace_files]
  · decide

/-- C9 amended: provided the folder path and search pattern are
non-empty, the folder exists and is a directory, and at least one target
file matched the extension filter, `use_regex = true` with an
uncompilable pattern fails with InvalidInput before any file is
processed: no per-file result entries, and the content of every target file
unchanged. -/
theorem invalid_regex_is_request_level_error
    (folderPath searchPattern replacePattern : String)
    (targets : List TargetFile) (previewOnly : Bool)
    (literalPattern : Pattern) (h1 : folderPath ≠ "")
    (h2 : searchPattern ≠ "") (h3 : targets ≠ []) :
    search_replace_files folderPath searchPattern replacePattern true
        targets true previewOnly none literalPattern =
      (Except.error ApiError.invalidInput, targets) := by
  simp [search_replace_files, h1, h2, h3]

/-- Witness for C9 at the concrete invalid regex "[". -/
theorem invalid_regex_is_request_level_error_witness :
    search_replace_files "folder" "[" "x" true [TargetFile.textFile "abc"]
        true true none ⟨fun _ => [], id⟩ =
      (Except.error ApiError.invalidInput, [TargetFile.textFile "abc"]) :=
  invalid_regex_is_request_level_error "folder" "[" "x"
    [TargetFile.textFile "abc"] true ⟨fun _ => [], id⟩
    (by decide) (by decide) (by simp)

end ExcelApp
